import Mathlib

/-!
Shallow embedding of `src/slack_client.py` (class `SlackClient`).

The remote Slack Web API is modelled as data supplied to each operation:
an HTTP response for the token exchange, and an `ApiCallResult` value
(successful response object, `SlackApiError`, or generic exception) for
the calls made through the SDK `WebClient`.  Python dictionaries coming
from the wire are modelled as structures whose possibly-absent keys are
`Option` fields; Python truthiness of an optional string (`None` and `""`
are falsy) is `truthyStr`.
-/

namespace SlackClient

/-- Python `str(x)` applied to an optional string (`str(None) = "None"`),
as it happens inside an f-string interpolation. -/
def pyStr : Option String → String
  | none => "None"
  | some s => s

/-- Python truthiness of an optional string: `None` and `""` are falsy. -/
def truthyStr : Option String → Bool
  | none => false
  | some s => s != ""

/-- Python `s.lower()`: per-character lowercasing (`String.map
Char.toLower`, written over the character list so that terms reduce). -/
def strToLower (s : String) : String :=
  String.mk (s.data.map Char.toLower)

/-- Python `s.lstrip('#')`: drop every leading `'#'` character. -/
def lstripHash (s : String) : String :=
  String.mk (s.data.dropWhile (fun c => c == '#'))

/-- `needle` is a prefix of `hay` (on character lists). -/
def isPrefixCL : List Char → List Char → Bool
  | [], _ => true
  | _ :: _, [] => false
  | a :: as, b :: bs => a == b && isPrefixCL as bs

/-- `needle` occurs as a contiguous sublist of `hay`. -/
def isSubstrCL (needle : List Char) : List Char → Bool
  | [] => needle.isEmpty
  | hay@(_ :: t) => isPrefixCL needle hay || isSubstrCL needle t

/-- Python `needle in hay` on strings: contiguous substring test. -/
def strContains (hay needle : String) : Bool :=
  isSubstrCL needle.data hay.data

/-- Python `s.startswith(c)` for a single-character argument `c`:
test whether the first character of `s` is `c`. -/
def startswith1 (s : String) (c : Char) : Bool :=
  match s.data with
  | [] => false
  | a :: _ => a == c

/-- The configuration the `SlackClient` object carries (`self.client_id`,
`self.client_secret`, read from the environment and possibly absent). -/
structure ClientState where
  client_id : Option String
  client_secret : Option String
deriving Repr, DecidableEq

/-- Outcome of a call made through the SDK `WebClient`: a returned
response object, a raised `SlackApiError` (carrying the optional
`e.response['error']` value and `str(e)`), or any other raised
exception (carrying `str(e)`). -/
inductive ApiCallResult (α : Type) where
  | ok (resp : α)
  | apiError (respError : Option String) (excMsg : String)
  | exn (excMsg : String)

/-! ## get_authorization_url -/

/-- `SlackClient.get_authorization_url`: pure f-string concatenation. -/
def get_authorization_url (client_id : Option String)
    (redirect_uri state : String) : String :=
  "https://slack.com/oauth/v2/authorize?client_id=" ++ pyStr client_id ++
    "&user_scope=channels:read,chat:write,groups:read,users:read" ++
    "&redirect_uri=" ++ redirect_uri ++ "&state=" ++ state

/-! ## exchange_code_for_token -/

/-- JSON body of the `oauth.v2.access` response.  `authedUserAccessToken`
models `data.get("authed_user", {}).get("access_token")`, `teamId` and
`teamName` model `data.get("team", {}).get(...)`. -/
structure OAuthPayload where
  ok : Bool
  error : Option String
  authedUserAccessToken : Option String
  accessToken : Option String
  teamId : Option String
  teamName : Option String
  scope : Option String
deriving Repr, DecidableEq

/-- HTTP response of the `requests.post` to the token endpoint. -/
structure HttpResponse where
  status : Nat
  body : OAuthPayload
deriving Repr, DecidableEq

/-- The dict returned by a successful `exchange_code_for_token`. -/
structure TokenResult where
  access_token : Option String
  team_id : Option String
  team_name : Option String
  scope : Option String
  token_type : String
deriving Repr, DecidableEq

/-- `SlackClient.exchange_code_for_token`, as a function of the HTTP
response.  Raising is modelled by `Except.error` carrying the exception
message (the final `except ... raise` re-raises unchanged). -/
def exchange_code_for_token (resp : HttpResponse) : Except String TokenResult :=
  if resp.status = 200 then
    let data := resp.body
    if data.ok then
      let authed_user_token := data.authedUserAccessToken
      -- user_token := authed_user.get("access_token"); if not user_token:
      -- fall back to data.get("access_token")
      let user_token : Option String :=
        if truthyStr authed_user_token then authed_user_token else data.accessToken
      Except.ok
        { access_token := user_token
          team_id := data.teamId
          team_name := data.teamName
          scope := data.scope
          token_type := if user_token = authed_user_token then "user" else "bot" }
    else
      Except.error ("Slack OAuth error: " ++ pyStr data.error)
  else
    Except.error ("Token exchange failed: " ++ toString resp.status)

/-! ## list_channels -/

/-- A raw channel record inside the `conversations_list` response; `id`
and `name` are accessed with `channel[...]` (required), the flags with
`channel.get(..., False)` (optional). -/
structure RawChannel where
  id : String
  name : String
  is_channel : Option Bool
  is_group : Option Bool
  is_private : Option Bool
  is_member : Option Bool
deriving Repr, DecidableEq

/-- Response object of `client.conversations_list`; `channels` models
`result.get("channels", [])`. -/
structure ConversationsListResponse where
  channels : List RawChannel
deriving Repr, DecidableEq

/-- The normalized channel dict built by `list_channels`. -/
structure Channel where
  id : String
  name : String
  is_channel : Bool
  is_group : Bool
  is_private : Bool
  is_member : Bool
deriving Repr, DecidableEq

/-- `SlackClient.list_channels`, as a function of the outcome of the
`conversations_list` call: maps the raw records on success, returns `[]`
on `SlackApiError` and on any other exception. -/
def list_channels (call : ApiCallResult ConversationsListResponse) : List Channel :=
  match call with
  | .ok result =>
      result.channels.map (fun c =>
        { id := c.id
          name := c.name
          is_channel := c.is_channel.getD false
          is_group := c.is_group.getD false
          is_private := c.is_private.getD false
          is_member := c.is_member.getD false })
  | .apiError _ _ => []
  | .exn _ => []

/-- `list_channels` as a method of the `SlackClient` object: the body
reads no field of `self` and assigns none (the `WebClient` is built
per call from the argument token), so the object state passes through
untouched and the output does not depend on it. -/
def list_channelsSt (st : ClientState)
    (call : ApiCallResult ConversationsListResponse) : List Channel × ClientState :=
  (list_channels call, st)

/-! ## send_message -/

/-- The echoed message record, `result.get("message", {})`; an absent
`message` key is the record with every field `none`. -/
structure MessageRecord where
  subtype : Option String
  bot_id : Option String
  username : Option String
deriving Repr, DecidableEq

/-- Response object of `client.chat_postMessage`. -/
structure PostMessageResponse where
  ok : Bool
  error : Option String
  ts : Option String
  channel : Option String
  message : MessageRecord
deriving Repr, DecidableEq

/-- The dict returned by `send_message`: `none` fields model keys absent
from the Python dict for the branch taken. -/
structure SendResult where
  success : Bool
  ts : Option String
  channel : Option String
  text : Option String
  posted_as : Option String
  error : Option String
deriving Repr, DecidableEq

/-- `SlackClient.send_message`, as a function of the outcome of the
`chat_postMessage` call and of the text argument. -/
def send_message (call : ApiCallResult PostMessageResponse) (text : String) :
    SendResult :=
  match call with
  | .ok result =>
      if result.ok then
        let bot_id := result.message.bot_id
        { success := true
          ts := result.ts
          channel := result.channel
          text := some text
          posted_as := some (if truthyStr bot_id then "bot" else "user")
          error := none }
      else
        { success := false, ts := none, channel := none, text := none
          posted_as := none, error := some (result.error.getD "Unknown error") }
  | .apiError respError excMsg =>
      { success := false, ts := none, channel := none, text := none
        posted_as := none, error := some (respError.getD excMsg) }
  | .exn excMsg =>
      { success := false, ts := none, channel := none, text := none
        posted_as := none, error := some excMsg }

/-! ## search_messages -/

/-- Response object of `client.search_messages`; `matches` models
`result.get("messages", {}).get("matches", [])`, each match kept as an
opaque raw record. -/
structure SearchResponse where
  ok : Bool
  error : Option String
  matchList : List String
deriving Repr, DecidableEq

/-- The dict returned by `search_messages`: `none` fields model keys
absent from the Python dict for the branch taken. -/
structure SearchMsgResult where
  success : Bool
  matchList : List String
  total : Nat
  error : Option String
deriving Repr, DecidableEq

/-- The channel-name resolution loop inside `search_messages`: first
channel whose lowercased name equals `channel.lower().lstrip('#')`. -/
def findChannelId (channels : List Channel) (channel : String) : Option String :=
  (channels.find? (fun ch => strToLower ch.name == lstripHash (strToLower channel))).map
    Channel.id

/-- The `search_query` built by `search_messages` from the query, the
optional channel argument, and the channels visible via `list_channels`. -/
def searchQueryOf (channels : List Channel) (channel : Option String)
    (query : String) : String :=
  if truthyStr channel then
    let ch := channel.getD ""
    if !(startswith1 ch 'C') && !(startswith1 ch 'G') then
      -- if channel_id:  (Python truthiness: None and "" are falsy)
      match findChannelId channels ch with
      | some channel_id =>
          if channel_id != "" then "in:" ++ channel_id ++ " " ++ query else query
      | none => query
    else
      "in:" ++ ch ++ " " ++ query
  else
    query

/-- `SlackClient.search_messages`, as a function of the outcome of the
`conversations_list` call (used for name resolution), of the search
endpoint (a function of the query string actually sent), and of the
query and channel arguments. -/
def search_messages (listCall : ApiCallResult ConversationsListResponse)
    (searchApi : String → ApiCallResult SearchResponse)
    (query : String) (channel : Option String) : SearchMsgResult :=
  let search_query := searchQueryOf (list_channels listCall) channel query
  match searchApi search_query with
  | .ok result =>
      if result.ok then
        let matchList := result.matchList
        { success := true, matchList := matchList, total := matchList.length
          error := none }
      else
        { success := false, matchList := [], total := 0
          error := some (result.error.getD "Unknown error") }
  | .apiError respError excMsg =>
      { success := false, matchList := [], total := 0
        error := some (respError.getD excMsg) }
  | .exn excMsg =>
      { success := false, matchList := [], total := 0, error := some excMsg }

/-! ## search_channels -/

/-- `SlackClient.search_channels`: filter the `list_channels` result by
case-insensitive substring match of `query.lower().lstrip('#')` against
the channel name (the surrounding `try` cannot fire: `list_channels`
never raises and the filtering is pure). -/
def search_channels (listCall : ApiCallResult ConversationsListResponse)
    (query : String) : List Channel :=
  let query_lower := lstripHash (strToLower query)
  (list_channels listCall).filter (fun channel =>
    strContains (strToLower channel.name) query_lower)

/-! ## Spec-worded variant of the name resolution (for comparison only) -/

/-- Remove every hyphen and hash character from a string (the stripping
the spec wording describes). -/
def stripHyphenHash (s : String) : String :=
  String.mk (s.data.filter (fun c => !(c == '-') && !(c == '#')))

/-- Channel-name resolution as the spec words it ("first case-insensitive
exact match on name with hyphen and hash characters stripped"), to be
compared with `findChannelId`, the resolution the code performs. -/
def findChannelIdSpec (channels : List Channel) (channel : String) : Option String :=
  (channels.find? (fun ch =>
    stripHyphenHash (strToLower ch.name) == stripHyphenHash (strToLower channel))).map
    Channel.id

end SlackClient

/-! # Theorems -/

namespace SlackClient

/-- C1 (counterexample). The claim demands `token_type == "bot"` for every
success payload lacking the nested authenticated-user token, but on the
payload where both the nested and the top-level token are absent the code
returns `token_type = "user"` (with `access_token = none`), because the
chosen token (`none`) compares equal to the nested value (`none`). -/
theorem C1_counterexample :
    exchange_code_for_token ⟨200, ⟨true, none, none, none, none, none, none⟩⟩ =
      Except.ok ⟨none, none, none, none, "user"⟩
    ∧ ("user" : String) ≠ "bot" := by
  constructor
  · rfl
  · decide

/-- C1 (amended): for every success payload (status 200, ok), if the
nested authenticated-user token is present and non-empty the result has
`token_type = "user"` and `access_token` equal to that nested token; if
the nested token is absent and the top-level token is present, the result
has `token_type = "bot"` and `access_token` equal to the top-level token. -/
theorem C1_token_selection (p : OAuthPayload) (hok : p.ok = true) :
    (∀ s : String, p.authedUserAccessToken = some s → s ≠ "" →
      exchange_code_for_token ⟨200, p⟩ =
        Except.ok ⟨some s, p.teamId, p.teamName, p.scope, "user"⟩)
    ∧ (p.authedUserAccessToken = none → ∀ t : String, p.accessToken = some t →
      exchange_code_for_token ⟨200, p⟩ =
        Except.ok ⟨some t, p.teamId, p.teamName, p.scope, "bot"⟩) := by
  constructor
  · intro s hs hne
    simp [exchange_code_for_token, hok, hs, truthyStr, hne]
  · intro hn t ht
    simp [exchange_code_for_token, hok, hn, ht, truthyStr]

/-- C1 (witness): evaluating the amended theorem on a concrete payload
carrying a nested user token. -/
theorem C1_witness :
    exchange_code_for_token
        ⟨200, ⟨true, none, some "xoxp-11", some "xoxb-22", some "T1", some "Acme",
          some "chat:write"⟩⟩ =
      Except.ok ⟨some "xoxp-11", some "T1", some "Acme", some "chat:write", "user"⟩ :=
  (C1_token_selection
    ⟨true, none, some "xoxp-11", some "xoxb-22", some "T1", some "Acme",
      some "chat:write"⟩ rfl).1 "xoxp-11" rfl (by decide)

/-- C2: `exchange_code_for_token` fails exactly when the exchange fails:
a non-200 HTTP status yields an error whose message carries the status
code, a 200 response whose payload is not ok yields an error whose
message carries the platform error string, and a 200 ok payload never
produces an error. -/
theorem C2_exchange_failure_raises (resp : HttpResponse) :
    (resp.status ≠ 200 →
      exchange_code_for_token resp =
        Except.error ("Token exchange failed: " ++ toString resp.status))
    ∧ (resp.status = 200 → resp.body.ok = false →
      exchange_code_for_token resp =
        Except.error ("Slack OAuth error: " ++ pyStr resp.body.error))
    ∧ (resp.status = 200 → resp.body.ok = true →
      ∀ msg : String, exchange_code_for_token resp ≠ Except.error msg) := by
  refine ⟨?_, ?_, ?_⟩
  · intro h
    simp [exchange_code_for_token, h]
  · intro h200 hnotok
    simp [exchange_code_for_token, h200, hnotok]
  · intro h200 hok msg
    simp [exchange_code_for_token, h200, hok]

/-- C2 (witness): status 500 raises with the status code in the message;
status 200 with `{ok: false, error: "invalid_code"}` raises with
"invalid_code" in the message. -/
theorem C2_witness :
    exchange_code_for_token ⟨500, ⟨true, none, none, none, none, none, none⟩⟩ =
      Except.error "Token exchange failed: 500"
    ∧ exchange_code_for_token
        ⟨200, ⟨false, some "invalid_code", none, none, none, none, none⟩⟩ =
      Except.error "Slack OAuth error: invalid_code" := by
  constructor
  · exact (C2_exchange_failure_raises
      ⟨500, ⟨true, none, none, none, none, none, none⟩⟩).1 (by decide)
  · exact (C2_exchange_failure_raises
      ⟨200, ⟨false, some "invalid_code", none, none, none, none, none⟩⟩).2.1 rfl rfl

/-- C10: on a success payload with neither a nested authenticated-user
token nor a top-level token, the result is `access_token = none` with
`token_type = "user"`, not `"bot"`; in general `token_type` is computed
by comparing the chosen token with the nested value (`"bot"` iff they
differ), so with the nested token absent, `"bot"` appears exactly when
the top-level fallback token exists. -/
theorem C10_both_absent (p : OAuthPayload) (hok : p.ok = true) :
    (p.authedUserAccessToken = none → p.accessToken = none →
      exchange_code_for_token ⟨200, p⟩ =
        Except.ok ⟨none, p.teamId, p.teamName, p.scope, "user"⟩)
    ∧ (∀ r : TokenResult, exchange_code_for_token ⟨200, p⟩ = Except.ok r →
        (r.token_type = "bot" ↔ r.access_token ≠ p.authedUserAccessToken))
    ∧ (p.authedUserAccessToken = none →
        ∀ r : TokenResult, exchange_code_for_token ⟨200, p⟩ = Except.ok r →
        (r.token_type = "bot" ↔ p.accessToken ≠ none)) := by
  refine ⟨?_, ?_, ?_⟩
  · intro hn ht
    simp [exchange_code_for_token, hok, hn, ht, truthyStr]
  · intro r hr
    obtain ⟨ok', err, nested, top, tid, tname, sc⟩ := p
    subst hok
    cases nested with
    | none =>
      cases top with
      | none =>
        simp [exchange_code_for_token, truthyStr] at hr
        subst hr
        simp
      | some t =>
        simp [exchange_code_for_token, truthyStr] at hr
        subst hr
        simp
    | some s =>
      by_cases hs : s = ""
      · subst hs
        cases top with
        | none =>
          simp [exchange_code_for_token, truthyStr] at hr
          subst hr
          simp
        | some t =>
          by_cases hts : t = ""
          · subst hts
            simp [exchange_code_for_token, truthyStr] at hr
            subst hr
            simp
          · simp [exchange_code_for_token, truthyStr, hts] at hr
            subst hr
            simp [hts]
      · simp [exchange_code_for_token, truthyStr, hs] at hr
        subst hr
        simp
  · intro hn r hr
    obtain ⟨ok', err, nested, top, tid, tname, sc⟩ := p
    subst hok
    subst hn
    cases top with
    | none =>
      simp [exchange_code_for_token, truthyStr] at hr
      subst hr
      simp
    | some t =>
      simp [exchange_code_for_token, truthyStr] at hr
      subst hr
      simp

/-- C10 (witness): evaluating the theorem on the concrete payload with
both tokens absent. -/
theorem C10_witness :
    exchange_code_for_token ⟨200, ⟨true, some "e", none, none, none, none, none⟩⟩ =
      Except.ok ⟨none, none, none, none, "user"⟩ :=
  (C10_both_absent ⟨true, some "e", none, none, none, none, none⟩ rfl).1 rfl rfl

end SlackClient

namespace SlackClient

/-- C3: the post-authentication operations never propagate an error from
the underlying API call: `send_message` and `search_messages` return a
`success = false` result carrying an error string both on a raised
`SlackApiError` (platform-level) and on any other exception
(transport-level), and `list_channels` returns the empty list in both
cases. -/
theorem C3_post_auth_fail_soft (respError : Option String)
    (excMsg text query : String)
    (listCall : ApiCallResult ConversationsListResponse)
    (searchApi : String → ApiCallResult SearchResponse)
    (channel : Option String) :
    ((send_message (.apiError respError excMsg) text).success = false
      ∧ (send_message (.apiError respError excMsg) text).error =
          some (respError.getD excMsg))
    ∧ ((send_message (.exn excMsg) text).success = false
      ∧ (send_message (.exn excMsg) text).error = some excMsg)
    ∧ (searchApi (searchQueryOf (list_channels listCall) channel query) =
          .apiError respError excMsg →
        (search_messages listCall searchApi query channel).success = false
        ∧ (search_messages listCall searchApi query channel).error =
            some (respError.getD excMsg))
    ∧ (searchApi (searchQueryOf (list_channels listCall) channel query) =
          .exn excMsg →
        (search_messages listCall searchApi query channel).success = false
        ∧ (search_messages listCall searchApi query channel).error = some excMsg)
    ∧ list_channels (.apiError respError excMsg) = []
    ∧ list_channels (.exn excMsg) = [] := by
  refine ⟨⟨rfl, rfl⟩, ⟨rfl, rfl⟩, ?_, ?_, rfl, rfl⟩
  · intro h
    constructor <;> simp [search_messages, h]
  · intro h
    constructor <;> simp [search_messages, h]

/-- C3 (witness): evaluating the theorem on concrete failing calls. -/
theorem C3_witness :
    (send_message (.apiError (some "not_authed") "err") "hi").error =
      some "not_authed"
    ∧ (search_messages (.exn "down")
        (fun _ => .apiError (some "not_authed") "err") "q" none).success = false
    ∧ list_channels (.exn "err") = [] := by
  refine ⟨?_, ?_, ?_⟩
  · exact (C3_post_auth_fail_soft (some "not_authed") "err" "hi" "q" (.exn "down")
      (fun _ => .apiError (some "not_authed") "err") none).1.2
  · exact ((C3_post_auth_fail_soft (some "not_authed") "err" "hi" "q" (.exn "down")
      (fun _ => .apiError (some "not_authed") "err") none).2.2.1 rfl).1
  · exact (C3_post_auth_fail_soft (some "not_authed") "err" "hi" "q" (.exn "down")
      (fun _ => .apiError (some "not_authed") "err") none).2.2.2.2.2

/-- C4 (counterexample). The claim describes the name resolution as an
exact match "with hyphen and hash characters stripped", but the code only
strips leading `'#'` from the argument and never strips hyphens: with a
single channel named "generaleng" (id "C1"), the argument "general-eng"
resolves under the claimed rule to "C1" while the code finds no match and
sends the raw query without an "in:" modifier. -/
theorem C4_counterexample :
    searchQueryOf
        (list_channels (.ok ⟨[⟨"C1", "generaleng", none, none, none, none⟩]⟩))
        (some "general-eng") "q" = "q"
    ∧ findChannelIdSpec
        (list_channels (.ok ⟨[⟨"C1", "generaleng", none, none, none, none⟩]⟩))
        "general-eng" = some "C1"
    ∧ findChannelId
        (list_channels (.ok ⟨[⟨"C1", "generaleng", none, none, none, none⟩]⟩))
        "general-eng" = none := by
  refine ⟨?_, ?_, ?_⟩ <;> decide

/-- C4 (amended): a non-identifier channel argument (non-empty, first
character neither 'C' nor 'G') is resolved against `list_channels` by
first match of the channel's lowercased name against the argument
lowercased with its leading '#' characters stripped (hyphens are not
stripped); when no channel matches, the "in:" modifier is omitted, the
raw query is sent unchanged, and the search returns the same result a
channel-less call would; when a channel matches, the modifier carries
its id if that id is non-empty, and an empty matched id also drops the
modifier (`if channel_id:`). -/
theorem C4_name_resolution (listCall : ApiCallResult ConversationsListResponse)
    (searchApi : String → ApiCallResult SearchResponse) (query ch : String)
    (hne : ch ≠ "") (hC : startswith1 ch 'C' = false)
    (hG : startswith1 ch 'G' = false) :
    ((∀ c ∈ list_channels listCall, strToLower c.name ≠ lstripHash (strToLower ch)) →
      searchQueryOf (list_channels listCall) (some ch) query = query
      ∧ search_messages listCall searchApi query (some ch) =
          search_messages listCall searchApi query none)
    ∧ (∀ cid : String, findChannelId (list_channels listCall) ch = some cid →
        cid ≠ "" →
        searchQueryOf (list_channels listCall) (some ch) query =
          "in:" ++ cid ++ " " ++ query)
    ∧ (findChannelId (list_channels listCall) ch = some "" →
        searchQueryOf (list_channels listCall) (some ch) query = query) := by
  refine ⟨?_, ?_, ?_⟩
  · intro hnm
    have hf : findChannelId (list_channels listCall) ch = none := by
      unfold findChannelId
      rw [Option.map_eq_none']
      rw [List.find?_eq_none]
      intro c hc
      simp only [beq_iff_eq]
      exact hnm c hc
    have hq : searchQueryOf (list_channels listCall) (some ch) query = query := by
      simp [searchQueryOf, truthyStr, hne, hC, hG, hf]
    refine ⟨hq, ?_⟩
    have hq' : searchQueryOf (list_channels listCall) none query = query := rfl
    simp [search_messages, hq, hq']
  · intro cid hcid hcne
    simp [searchQueryOf, truthyStr, hne, hC, hG, hcid, hcne]
  · intro hcid
    simp [searchQueryOf, truthyStr, hne, hC, hG, hcid]

/-- C4 (witness): with the single channel "general" (id "C001"), the
unresolvable argument "nonexistent" leaves the raw query unchanged and
the search result equals the channel-less one, while the resolvable
argument "#General" yields the "in:C001" modifier. -/
theorem C4_witness :
    (searchQueryOf
        (list_channels (.ok ⟨[⟨"C001", "general", none, none, none, none⟩]⟩))
        (some "nonexistent") "hello" = "hello"
      ∧ search_messages (.ok ⟨[⟨"C001", "general", none, none, none, none⟩]⟩)
          (fun _ => .ok ⟨true, none, ["m1"]⟩) "hello" (some "nonexistent") =
        search_messages (.ok ⟨[⟨"C001", "general", none, none, none, none⟩]⟩)
          (fun _ => .ok ⟨true, none, ["m1"]⟩) "hello" none)
    ∧ searchQueryOf
        (list_channels (.ok ⟨[⟨"C001", "general", none, none, none, none⟩]⟩))
        (some "#General") "hello" = "in:C001 hello" := by
  constructor
  · exact C4_name_resolution (.ok ⟨[⟨"C001", "general", none, none, none, none⟩]⟩)
      (fun _ => .ok ⟨true, none, ["m1"]⟩) "hello" "nonexistent"
      (by decide) (by decide) (by decide) |>.1 (by decide)
  · exact C4_name_resolution (.ok ⟨[⟨"C001", "general", none, none, none, none⟩]⟩)
      (fun _ => .ok ⟨true, none, ["m1"]⟩) "hello" "#General"
      (by decide) (by decide) (by decide) |>.2.1 "C001" (by decide) (by decide)

/-- C5: a successful `send_message` (ok response) returns `success = true`,
the response's timestamp and channel, and the sent text; `posted_as` is
"bot" exactly when the echoed message record carries a non-empty `bot_id`,
and it is "user" whenever `bot_id` is absent. -/
theorem C5_posted_as (resp : PostMessageResponse) (text : String)
    (hok : resp.ok = true) :
    (send_message (.ok resp) text).success = true
    ∧ (send_message (.ok resp) text).ts = resp.ts
    ∧ (send_message (.ok resp) text).channel = resp.channel
    ∧ (send_message (.ok resp) text).text = some text
    ∧ ((send_message (.ok resp) text).posted_as = some "bot" ↔
        ∃ b : String, resp.message.bot_id = some b ∧ b ≠ "")
    ∧ (resp.message.bot_id = none →
        (send_message (.ok resp) text).posted_as = some "user") := by
  have hred : send_message (.ok resp) text =
      { success := true, ts := resp.ts, channel := resp.channel
        text := some text
        posted_as := some (if truthyStr resp.message.bot_id then "bot" else "user")
        error := none } := by
    simp [send_message, hok]
  rw [hred]
  refine ⟨rfl, rfl, rfl, rfl, ?_, ?_⟩
  · cases hbid : resp.message.bot_id with
    | none => simp [truthyStr]
    | some b =>
      by_cases hb : b = ""
      · subst hb
        simp [truthyStr]
      · simp [truthyStr, hb]
  · intro hn
    simp [hn, truthyStr]

/-- C5 (witness): a concrete ok response with `bot_id` present posts as
"bot"; one with `bot_id` absent posts as "user". -/
theorem C5_witness :
    (send_message (.ok ⟨true, none, some "123.45", some "C001",
        ⟨none, some "B07", none⟩⟩) "hi").posted_as = some "bot"
    ∧ (send_message (.ok ⟨true, none, some "123.45", some "C001",
        ⟨none, none, none⟩⟩) "hi").posted_as = some "user" := by
  constructor
  · exact ((C5_posted_as ⟨true, none, some "123.45", some "C001",
      ⟨none, some "B07", none⟩⟩ "hi" rfl).2.2.2.2.1).mpr ⟨"B07", rfl, by decide⟩
  · exact (C5_posted_as ⟨true, none, some "123.45", some "C001",
      ⟨none, none, none⟩⟩ "hi" rfl).2.2.2.2.2 rfl

end SlackClient

namespace SlackClient

/-- C6: `search_channels` is exactly the filter of the `list_channels`
result by case-insensitive substring match of the query (leading '#'
stripped) against the channel name — no further network call — and on a
channel set {"general", "general-eng", "random"} the query "general"
returns precisely "general" and "general-eng". -/
theorem C6_search_channels_filter
    (listCall : ApiCallResult ConversationsListResponse) (query : String) :
    search_channels listCall query =
      (list_channels listCall).filter
        (fun c => strContains (strToLower c.name) (lstripHash (strToLower query)))
    ∧ (∀ c : Channel, c ∈ search_channels listCall query ↔
        c ∈ list_channels listCall ∧
          strContains (strToLower c.name) (lstripHash (strToLower query)) = true)
    ∧ (search_channels (.ok ⟨[⟨"C001", "general", none, none, none, none⟩,
          ⟨"C002", "general-eng", none, none, none, none⟩,
          ⟨"C003", "random", none, none, none, none⟩]⟩) "general").map
        Channel.name = ["general", "general-eng"] := by
  refine ⟨rfl, ?_, by decide⟩
  intro c
  simp [search_channels, List.mem_filter]

/-- C7: `get_authorization_url` is a total string construction that
returns exactly the authorize-endpoint URL with the configured client id,
the fixed user-scope list `channels:read,chat:write,groups:read,users:read`,
and the caller's `redirect_uri` and `state` embedded verbatim. -/
theorem C7_auth_url (client_id : Option String) (redirect_uri state : String) :
    get_authorization_url client_id redirect_uri state =
      "https://slack.com/oauth/v2/authorize?client_id=" ++ pyStr client_id ++
        "&user_scope=channels:read,chat:write,groups:read,users:read" ++
        "&redirect_uri=" ++ redirect_uri ++ "&state=" ++ state := rfl

/-- C8: `list_channels` keeps no local state — the object state passes
through a call unchanged, the result does not depend on that state, and
two successive calls against the same unchanged remote response return
equal channel lists (equal as lists, hence as order-irrelevant sets). -/
theorem C8_list_channels_stateless (st st' : ClientState)
    (call : ApiCallResult ConversationsListResponse) :
    (list_channelsSt st call).2 = st
    ∧ (list_channelsSt st call).1 =
        (list_channelsSt (list_channelsSt st call).2 call).1
    ∧ (list_channelsSt st call).1 = (list_channelsSt st' call).1 :=
  ⟨rfl, rfl, rfl⟩

/-- C9: the "looks like a channel identifier" test is a case-sensitive
check of the first character against 'C' and 'G': an argument whose
first character is 'C' or 'G' is spliced verbatim into the "in:"
modifier with no name resolution (the result is independent of the
channel list), while an argument starting with lowercase 'c' or 'g'
always goes through the name-resolution branch (whose resolved id is
spliced only when non-empty, per `if channel_id:`). -/
theorem C9_channel_id_heuristic
    (listCall listCall' : ApiCallResult ConversationsListResponse)
    (query ch : String) :
    ((ch.data.head? = some 'C' ∨ ch.data.head? = some 'G') →
      searchQueryOf (list_channels listCall) (some ch) query =
          "in:" ++ ch ++ " " ++ query
      ∧ searchQueryOf (list_channels listCall) (some ch) query =
          searchQueryOf (list_channels listCall') (some ch) query)
    ∧ ((ch.data.head? = some 'c' ∨ ch.data.head? = some 'g') →
      searchQueryOf (list_channels listCall) (some ch) query =
        (match findChannelId (list_channels listCall) ch with
         | some cid => if cid != "" then "in:" ++ cid ++ " " ++ query else query
         | none => query)) := by
  constructor
  · intro hhead
    have hne : ch ≠ "" := by
      intro h
      subst h
      rcases hhead with h | h <;> simp at h
    have hsw : startswith1 ch 'C' = true ∨ startswith1 ch 'G' = true := by
      rcases hhead with h | h
      · left
        unfold startswith1
        cases hd : ch.data with
        | nil => rw [hd] at h; simp at h
        | cons a t =>
          rw [hd] at h
          simp at h
          simp [h]
      · right
        unfold startswith1
        cases hd : ch.data with
        | nil => rw [hd] at h; simp at h
        | cons a t =>
          rw [hd] at h
          simp at h
          simp [h]
    have hcond : (!(startswith1 ch 'C') && !(startswith1 ch 'G')) = false := by
      rcases hsw with h | h <;> simp [h]
    constructor <;> simp [searchQueryOf, truthyStr, hne, hcond]
  · intro hhead
    have hne : ch ≠ "" := by
      intro h
      subst h
      rcases hhead with h | h <;> simp at h
    have hC : startswith1 ch 'C' = false := by
      unfold startswith1
      cases hd : ch.data with
      | nil => rfl
      | cons a t =>
        rw [hd] at hhead
        rcases hhead with h | h <;> simp at h <;> simp [h]
    have hG : startswith1 ch 'G' = false := by
      unfold startswith1
      cases hd : ch.data with
      | nil => rfl
      | cons a t =>
        rw [hd] at hhead
        rcases hhead with h | h <;> simp at h <;> simp [h]
    simp [searchQueryOf, truthyStr, hne, hC, hG]

/-- C9 (witness): the human-looking name "CoolChannel" is used verbatim
in the modifier (even though a channel of that name exists under a
different id), while the lowercase "coolchannel" is resolved to its id. -/
theorem C9_witness :
    searchQueryOf
        (list_channels (.ok ⟨[⟨"C9", "coolchannel", none, none, none, none⟩]⟩))
        (some "CoolChannel") "q" = "in:CoolChannel q"
    ∧ searchQueryOf
        (list_channels (.ok ⟨[⟨"C9", "coolchannel", none, none, none, none⟩]⟩))
        (some "coolchannel") "q" = "in:C9 q" := by
  constructor
  · exact (C9_channel_id_heuristic
      (.ok ⟨[⟨"C9", "coolchannel", none, none, none, none⟩]⟩)
      (.ok ⟨[⟨"C9", "coolchannel", none, none, none, none⟩]⟩)
      "q" "CoolChannel").1 (Or.inl (by decide)) |>.1
  · exact (C9_channel_id_heuristic
      (.ok ⟨[⟨"C9", "coolchannel", none, none, none, none⟩]⟩)
      (.ok ⟨[⟨"C9", "coolchannel", none, none, none, none⟩]⟩)
      "q" "coolchannel").2 (Or.inl (by decide))

end SlackClient
